import Mathlib

/-
Verification of the cumulus storage adapter (cumulus/storage.py and
cumulus/settings.py): a shallow embedding of the retry loops, the
checksum-based upload deduplication in `_save`, the header-rule table,
`listdir`, `delete`, `__init__`, and the `CloudFilesStorageFile` read
cursor, together with theorems about them.

Remote calls (pyrax / httplib) are external; each loop is therefore run
against a *script*: the list of outcomes the remote side produces for the
successive attempts.  Python byte strings are modelled as `List Nat`.
-/

namespace Cumulus

/-- The exception kinds relevant to storage.py.  `http` models
`httplib.HTTPException` (network I/O failure), `ssl` models
`ssl.SSLError` (TLS failure), `service` models
`pyrax.exceptions.ServiceResponseFailure` (remote-service-side failure),
`socketError` models `socket.error` (socket-level failure),
`noSuchObject` models `pyrax.exceptions.NoSuchObject` (not-found),
`otherErr` stands for every other exception. -/
inductive EKind
  | http
  | ssl
  | service
  | socketError
  | noSuchObject
  | otherErr
deriving DecidableEq, Repr

/-- A concrete raised exception: its kind plus an identifier that
distinguishes one raised instance from another (so that "raises the
last error" is expressible). -/
structure RErr where
  kind : EKind
  id : Nat
deriving DecidableEq, Repr

/-- The exception tuple caught by the retry loops of `_get_cloud_obj`
(storage.py line 112) and `delete` (line 203):
`(HTTPException, SSLError, ServiceResponseFailure)`. -/
def isTransientGet (e : RErr) : Bool :=
  match e.kind with
  | .http => true
  | .ssl => true
  | .service => true
  | _ => false

/-- The exception tuple caught by the upload retry loop of `_save`
(storage.py line 171):
`(HTTPException, SSLError, ServiceResponseFailure, socket.error)`. -/
def isTransientUpload (e : RErr) : Bool :=
  match e.kind with
  | .http => true
  | .ssl => true
  | .service => true
  | .socketError => true
  | _ => false

/-- A remote cloud object as seen through pyrax: its reported etag
(md5 checksum, possibly empty) and its content bytes. -/
structure RemoteObj where
  etag : List Nat
  content : List Nat
deriving DecidableEq, Repr

/-- `total_bytes` metadata of a remote object: the remote store reports
the actual byte count of the stored content. -/
def RemoteObj.total_bytes (o : RemoteObj) : Nat := o.content.length

/-- Outcome of one attempt of a remote call: either the call returns a
value or it raises an exception. -/
inductive Attempt (α : Type)
  | ok (v : α)
  | err (e : RErr)
deriving DecidableEq, Repr

/-- Result of running one of the retry loops to completion: the loop
returns a value, re-raises an exception, or the script ran out before
the loop finished (the loop would still be waiting on the remote side). -/
inductive RunResult (α : Type)
  | ok (v : α)
  | raised (e : RErr)
  | incomplete
deriving DecidableEq, Repr

/-- Result of `_get_cloud_obj` / `delete`: the run result together with
the list of `logger.warning` records, each holding the attempt number
printed and the error logged. -/
structure LoopOut (α : Type) where
  result : RunResult α
  logs : List (Nat × RErr)
deriving DecidableEq, Repr

/-- The retry loop of `CloudFilesStorage._get_cloud_obj`
(storage.py lines 108-117), run against a script of attempt outcomes:

    tries = 0
    while True:
        try:
            return self.container.get_object(name)
        except (HTTPException, SSLError, ServiceResponseFailure), e:
            if tries >= self.max_retries:
                raise
            tries += 1
            logger.warning(... attempt tries/max_retries ...)

Exceptions outside the caught tuple (NoSuchObject, socket.error, ...)
propagate immediately. -/
def get_cloud_obj_aux (mr : Nat) :
    List (Attempt RemoteObj) → Nat → List (Nat × RErr) → LoopOut RemoteObj
  | [], _, logs => ⟨.incomplete, logs⟩
  | .ok v :: _, _, logs => ⟨.ok v, logs⟩
  | .err e :: rest, tries, logs =>
      if isTransientGet e then
        if mr ≤ tries then ⟨.raised e, logs⟩
        else get_cloud_obj_aux mr rest (tries + 1) (logs ++ [(tries + 1, e)])
      else ⟨.raised e, logs⟩

/-- `_get_cloud_obj` started the way the method starts: `tries = 0`,
nothing logged yet. -/
def get_cloud_obj (mr : Nat) (script : List (Attempt RemoteObj)) : LoopOut RemoteObj :=
  get_cloud_obj_aux mr script 0 []

/-- The retry loop of `CloudFilesStorage.delete`
(storage.py lines 195-208): like `_get_cloud_obj` but a successful
`delete_object` breaks out of the loop, and `NoSuchObject` is caught
first and also breaks out ("It doesn't exist and that's ok"). -/
def delete_aux (mr : Nat) :
    List (Attempt Unit) → Nat → List (Nat × RErr) → LoopOut Unit
  | [], _, logs => ⟨.incomplete, logs⟩
  | .ok _ :: _, _, logs => ⟨.ok (), logs⟩
  | .err e :: rest, tries, logs =>
      if e.kind = .noSuchObject then ⟨.ok (), logs⟩
      else if isTransientGet e then
        if mr ≤ tries then ⟨.raised e, logs⟩
        else delete_aux mr rest (tries + 1) (logs ++ [(tries + 1, e)])
      else ⟨.raised e, logs⟩

/-- `delete` started with `tries = 0` and nothing logged. -/
def delete (mr : Nat) (script : List (Attempt Unit)) : LoopOut Unit :=
  delete_aux mr script 0 []

/-- The state of the content stream handed to `_save`: the length of its
underlying data, the current position, whether `close()` has been
called, and whether the object has a `seek` attribute. -/
structure StreamState where
  len : Nat
  pos : Nat
  closed : Bool
  hasSeek : Bool
deriving DecidableEq, Repr

/-- `content.seek(0)` — executed before a retried upload attempt, but
only when the content object has a `seek` attribute (line 178-179). -/
def rewind (st : StreamState) : StreamState :=
  if st.hasSeek then ⟨st.len, 0, st.closed, st.hasSeek⟩ else st

/-- An upload attempt reads the stream through to its end
(`upload_file` consumes `content.file`). -/
def consume (st : StreamState) : StreamState :=
  ⟨st.len, st.len, st.closed, st.hasSeek⟩

/-- Result of the upload retry loop of `_save`: run result, warning
logs, the number of `upload_file` calls made, the stream position at
the start of each attempt, and final stream state. -/
structure UploadOut where
  result : RunResult RemoteObj
  logs : List (Nat × RErr)
  attempts : Nat
  startPositions : List Nat
  stream : StreamState
deriving DecidableEq, Repr

/-- The upload retry loop of `CloudFilesStorage._save`
(storage.py lines 159-181):

    tries = 0
    while True:
        try:
            cloud_obj = self.container.upload_file(...)
            break
        except (HTTPException, SSLError, ServiceResponseFailure, socket.error) as e:
            if tries >= self.max_retries:
                raise
            tries += 1
            logger.warning(...)
            if hasattr(content, 'seek'):
                content.seek(0)
        else:
            content.close()

Note the Python semantics of the final `else`: the clause of a
`try`-statement's `else` runs only when control flows off the end of the
`try` block, and here the `try` block always exits via `break` on
success, so `content.close()` is unreachable.  The embedding therefore
never sets `closed`. -/
def upload_aux (mr : Nat) :
    List (Attempt RemoteObj) → Nat → List (Nat × RErr) → Nat → List Nat →
    StreamState → UploadOut
  | [], _, logs, att, sp, st => ⟨.incomplete, logs, att, sp, st⟩
  | .ok v :: _, _, logs, att, sp, st =>
      ⟨.ok v, logs, att + 1, sp ++ [st.pos], consume st⟩
  | .err e :: rest, tries, logs, att, sp, st =>
      if isTransientUpload e then
        if mr ≤ tries then ⟨.raised e, logs, att + 1, sp ++ [st.pos], consume st⟩
        else upload_aux mr rest (tries + 1) (logs ++ [(tries + 1, e)])
          (att + 1) (sp ++ [st.pos]) (rewind (consume st))
      else ⟨.raised e, logs, att + 1, sp ++ [st.pos], consume st⟩

/-- The upload loop started with `tries = 0`, nothing logged, no attempt
made yet. -/
def upload_loop (mr : Nat) (script : List (Attempt RemoteObj)) (st : StreamState) :
    UploadOut :=
  upload_aux mr script 0 [] 0 [] st

/-- Models the external `pyrax.utils.get_checksum(content.file)`: the
md5 hex digest of the content read from its start.  The digest of the
external function is never the empty string and distinct contents give
distinct digests; both properties are kept by tagging the content with
the marker bytes 109,100,53 ("md5"). -/
def get_checksum (content : List Nat) : List Nat :=
  109 :: 100 :: 53 :: content

/-- The upload decision of `_save` (storage.py lines 135-143):

    upload = True
    try:
        cloud_obj = self._get_cloud_obj(name)
    except NoSuchObject:
        pass
    else:
        if cloud_obj.etag and cloud_obj.etag == etag:
            upload = False

`fetched` is the outcome of the metadata fetch (`none` when it raised
`NoSuchObject`), `etag` the locally computed checksum. -/
def shouldUpload (fetched : Option RemoteObj) (etag : List Nat) : Bool :=
  match fetched with
  | none => true
  | some obj => if obj.etag ≠ [] ∧ obj.etag = etag then false else true

/-- Result of `_save`: the run result (the returned name, or the
re-raised error of an exhausted upload loop), the number of
`upload_file` calls made, the warning logs, and the content stream's
final state. -/
structure SaveOut where
  result : RunResult String
  uploadCalls : Nat
  logs : List (Nat × RErr)
  stream : StreamState
deriving DecidableEq, Repr

/-- Packaging of the upload loop's outcome at the end of `_save`:
success falls through to `return name`, a raised error propagates. -/
def saveUploadOut (name : String) (u : UploadOut) : SaveOut :=
  match u.result with
  | .ok _ => ⟨.ok name, u.attempts, u.logs, u.stream⟩
  | .raised e => ⟨.raised e, u.attempts, u.logs, u.stream⟩
  | .incomplete => ⟨.incomplete, u.attempts, u.logs, u.stream⟩

/-- `CloudFilesStorage._save` (storage.py lines 125-182) at the level
the claims are about: compute the checksum of the content, decide via
`shouldUpload` whether to upload (`fetched` is the metadata-fetch
outcome, `none` meaning `NoSuchObject`), and if so run
`content.open()` (which rewinds the stream to its start) followed by
the upload retry loop; finally `return name`. -/
def save (mr : Nat) (fetched : Option RemoteObj) (name : String)
    (content : List Nat) (script : List (Attempt RemoteObj))
    (st : StreamState) : SaveOut :=
  if shouldUpload fetched (get_checksum content) then
    saveUploadOut name (upload_loop mr script ⟨st.len, 0, st.closed, st.hasSeek⟩)
  else ⟨.ok name, 0, [], st⟩

/-- One rule of `HEADER_PATTERNS` (storage.py lines 24-28): a compiled
pattern, modelled by its match function (`pattern.match(name)`, anchored
at the start of `name`), and the header dict for that pattern. -/
structure HeaderRule where
  matchFn : String → Bool
  headers : List (String × String)

/-- Setting one key of a Python dict: replace the value if the key is
present, otherwise append the binding. -/
def dictSet (d : List (String × String)) (k v : String) : List (String × String) :=
  if d.any (fun p => p.1 = k) then
    d.map (fun p => if p.1 = k then (k, v) else p)
  else d ++ [(k, v)]

/-- `headers.update(pattern_headers.copy())`: set every binding of the
other dict, in order. -/
def dictUpdate (d other : List (String × String)) : List (String × String) :=
  other.foldl (fun acc p => dictSet acc p.1 p.2) d

/-- `CloudFilesStorage._headers_for` (storage.py lines 184-189):

    headers = {}
    for pattern, pattern_headers in header_patterns:
        if pattern.match(name):
            headers.update(pattern_headers.copy())
    return headers
-/
def headers_for (rules : List HeaderRule) (name : String) : List (String × String) :=
  rules.foldl (fun acc r => if r.matchFn name then dictUpdate acc r.headers else acc) []

/-- The same map described by the spec's words: take the rules whose
pattern matches the name, in table order, and merge their header-sets
into an initially empty accumulator, later matches overwriting keys. -/
def headersForSpec (rules : List HeaderRule) (name : String) : List (String × String) :=
  (rules.filter (fun r => r.matchFn name)).foldl
    (fun acc r => dictUpdate acc r.headers) []

/-- Python `str.endswith`, on the string's character list (total and
kernel-computable). -/
def strEndsWith (s pat : String) : Bool :=
  pat.data.isSuffixOf s.data

/-- Python `str.startswith`, on the string's character list (total and
kernel-computable). -/
def strStartsWith (s pat : String) : Bool :=
  pat.data.isPrefixOf s.data

/-- Rule A of the spec's worked example: matches css-suffixed names and
sets `X` to `1`. -/
def ruleA : HeaderRule :=
  ⟨fun n => strEndsWith n ".css", [("X", "1")]⟩

/-- Rule B of the spec's worked example, listed after A: matches
app-prefixed names and sets `X` to `2` and `Y` to `3`. -/
def ruleB : HeaderRule :=
  ⟨fun n => strStartsWith n "app/", [("X", "2"), ("Y", "3")]⟩

/-- Models the external `container.list_all(prefix=path)`: the names in
the remote store that start with the given prefix string. -/
def list_all (store : List String) (pfx : String) : List String :=
  store.filter (fun n => strStartsWith n pfx)

/-- `CloudFilesStorage.listdir` (storage.py lines 228-237):

    if path and not path.endswith('/'):
        path = '%s/' % path
    files = [f.name for f in self.container.list_all(prefix=path)]
    return ([], files)

`store` is the list of object names in the container. -/
def listdir (store : List String) (path : String) : List String × List String :=
  let p := if path ≠ "" ∧ strEndsWith path "/" = false then path ++ "/" else path
  ([], list_all store p)

/-- The prefix normalization described by the claim: append the path
separator when the prefix is non-empty and does not already end with
it, leave it unchanged otherwise. -/
def normalizedPfx (path : String) : String :=
  if path ≠ "" ∧ strEndsWith path "/" = false then path ++ "/" else path

/-- The state of a `CloudFilesStorageFile` whose remote handle has been
resolved (`_get_file` has run, setting `_pos = 0`): the remote object's
content bytes and the read cursor `_pos`.  The resolved size is the
metadata `total_bytes`, i.e. the length of the content. -/
structure FileState where
  content : List Nat
  pos : Nat
deriving DecidableEq, Repr

/-- The resolved size of the stream (`self.size`, the object's
`total_bytes`). -/
def FileState.size (st : FileState) : Nat := st.content.length

/-- `CloudFilesStorageFile._get_file` resolving the handle for the
first time (storage.py lines 324-328): fetch the object and reset
`_pos` to 0. -/
def openFile (obj : RemoteObj) : FileState := ⟨obj.content, 0⟩

/-- `CloudFilesStorageFile.read` (storage.py lines 361-370):

    if self._pos == self.size:
        return ""
    if num_bytes and self._pos + num_bytes > self.size:
        num_bytes = self.size - self._pos
    data = self.file.get()
    self._pos += len(data)
    return data

The clamped `num_bytes` is computed but never passed on: `get()` is
called with no byte limit and returns the whole object content. -/
def read (st : FileState) (numBytes : Nat) : List Nat × FileState :=
  if st.pos = st.size then ([], st)
  else
    let _clamped := if numBytes ≠ 0 ∧ st.size < st.pos + numBytes
      then st.size - st.pos else numBytes
    let data := st.content
    (data, ⟨st.content, st.pos + data.length⟩)

/-- A sequence of `read` calls with the given `num_bytes` arguments. -/
def runReads (st : FileState) (ops : List Nat) : FileState :=
  ops.foldl (fun s n => (read s n).2) st

/-- The `CUMULUS` settings dict (settings.py lines 3-18) restricted to
the keys `CloudFilesStorage` reads.  `container_uri` is `some` exactly
when the optional key `CONTAINER_URI` is present in the dict. -/
structure CumulusSettings where
  api_key : Option String
  container : Option String
  max_retries : Nat
  pyrax_identity_type : String
  timeout : Nat
  ttl : Nat
  use_ssl : Bool
  username : Option String
  container_uri : Option String
deriving DecidableEq, Repr

/-- The default `CUMULUS` dict of settings.py: `API_KEY`, `CONTAINER`
and `USERNAME` default to `None`; `MAX_RETRIES` 5, identity type
`keystone`, `TIMEOUT` 5, `TTL` 86400, `USE_SSL` False; no
`CONTAINER_URI` key. -/
def defaultCumulus : CumulusSettings :=
  ⟨none, none, 5, "keystone", 5, 86400, false, none, none⟩

/-- The error the spec says construction raises on a missing
username / API key / container name. -/
inductive ConfigurationError
  | mk
deriving DecidableEq, Repr

/-- The instance state left by `CloudFilesStorage.__init__`:
the settings fields after parameter overrides, plus the arguments of
the external `pyrax.set_setting` / `pyrax.set_credentials` calls. -/
structure StorageState where
  username : Option String
  api_key : Option String
  container_name : Option String
  timeout : Nat
  max_retries : Nat
  container_public_uri : Option String
  credentials_set : Option String × Option String
  identity_type_set : String
deriving DecidableEq, Repr

/-- `CloudFilesStorage.__init__` (storage.py lines 44-65): each class
attribute (taken from the `CUMULUS` dict `c`) is overridden by the
corresponding constructor parameter when that parameter is not None;
`_container_public_uri` is set from the parameter, else from
`CUMULUS['CONTAINER_URI']` when that key is present; then the external
`pyrax.set_setting("identity_type", ...)` and
`pyrax.set_credentials(self.username, self.api_key)` run.  The method
contains no validation and no raise statement of its own, so the
result is always `Except.ok`. -/
def storageInit (c : CumulusSettings)
    (username api_key container : Option String)
    (timeout max_retries : Option Nat)
    (container_uri : Option String) : Except ConfigurationError StorageState :=
  let u := match username with | some x => some x | none => c.username
  let k := match api_key with | some x => some x | none => c.api_key
  let ct := match container with | some x => some x | none => c.container
  let t := match timeout with | some x => x | none => c.timeout
  let m := match max_retries with | some x => x | none => c.max_retries
  let cu := match container_uri with | some x => some x | none => c.container_uri
  .ok ⟨u, k, ct, t, m, cu, (u, k), c.pyrax_identity_type⟩

/-- The `logger.warning` records produced by a retry loop that sees `k`
consecutive transient failures with error `e`, entered with `tries = t`:
attempt numbers `t+1, t+2, ...`, each paired with the error. -/
def retryLogs (t k : Nat) (e : RErr) : List (Nat × RErr) :=
  match k with
  | 0 => []
  | k + 1 => (t + 1, e) :: retryLogs (t + 1) k e

/-- A concrete remote object for witnesses. -/
def obj0 : RemoteObj := ⟨[], []⟩

/-- A concrete stream state for witnesses: length 2, at the start, not
closed, seekable. -/
def stream0 : StreamState := ⟨2, 0, false, true⟩

lemma transientGet_upload (e : RErr) (h : isTransientGet e = true) :
    isTransientUpload e = true := by
  cases e with
  | mk kind i => cases kind <;> simp_all [isTransientGet, isTransientUpload]

lemma transientGet_ne_nso (e : RErr) (h : isTransientGet e = true) :
    ¬ e.kind = EKind.noSuchObject := by
  cases e with
  | mk kind i => cases kind <;> simp_all [isTransientGet]

lemma socket_not_transientGet (e : RErr) (h : e.kind = EKind.socketError) :
    isTransientGet e = false := by
  simp [isTransientGet, h]

lemma socket_transientUpload (e : RErr) (h : e.kind = EKind.socketError) :
    isTransientUpload e = true := by
  simp [isTransientUpload, h]

lemma other_not_transientGet (e : RErr) (h : e.kind = EKind.otherErr) :
    isTransientGet e = false := by
  simp [isTransientGet, h]

lemma other_not_transientUpload (e : RErr) (h : e.kind = EKind.otherErr) :
    isTransientUpload e = false := by
  simp [isTransientUpload, h]

lemma nso_not_transientGet (e : RErr) (h : e.kind = EKind.noSuchObject) :
    isTransientGet e = false := by
  simp [isTransientGet, h]

lemma nso_not_transientUpload (e : RErr) (h : e.kind = EKind.noSuchObject) :
    isTransientUpload e = false := by
  simp [isTransientUpload, h]

lemma retryLogs_length : ∀ (t k : Nat) (e : RErr), (retryLogs t k e).length = k := by
  intro t k
  induction k generalizing t with
  | zero => intro e; rfl
  | succ k ih => intro e; simp [retryLogs, ih]

lemma get_cloud_obj_aux_replicate (mr : Nat) (e : RErr) (he : isTransientGet e = true) :
    ∀ (k t : Nat) (rest : List (Attempt RemoteObj)) (logs : List (Nat × RErr)),
      t + k ≤ mr →
      get_cloud_obj_aux mr (List.replicate k (Attempt.err e) ++ rest) t logs =
        get_cloud_obj_aux mr rest (t + k) (logs ++ retryLogs t k e) := by
  intro k
  induction k with
  | zero =>
    intro t rest logs _
    simp [retryLogs]
  | succ k ih =>
    intro t rest logs h
    have hnle : ¬ mr ≤ t := by omega
    rw [List.replicate_succ, List.cons_append]
    simp only [get_cloud_obj_aux, he, if_true, hnle, if_false]
    rw [ih (t + 1) rest (logs ++ [(t + 1, e)]) (by omega)]
    have harith : t + 1 + k = t + (k + 1) := by omega
    rw [harith]
    simp [retryLogs, List.append_assoc]

lemma delete_aux_replicate (mr : Nat) (e : RErr) (he : isTransientGet e = true) :
    ∀ (k t : Nat) (rest : List (Attempt Unit)) (logs : List (Nat × RErr)),
      t + k ≤ mr →
      delete_aux mr (List.replicate k (Attempt.err e) ++ rest) t logs =
        delete_aux mr rest (t + k) (logs ++ retryLogs t k e) := by
  intro k
  induction k with
  | zero =>
    intro t rest logs _
    simp [retryLogs]
  | succ k ih =>
    intro t rest logs h
    have hnle : ¬ mr ≤ t := by omega
    have hnso : ¬ e.kind = EKind.noSuchObject := transientGet_ne_nso e he
    rw [List.replicate_succ, List.cons_append]
    simp only [delete_aux, he, if_true, hnle, if_false, hnso]
    rw [ih (t + 1) rest (logs ++ [(t + 1, e)]) (by omega)]
    have harith : t + 1 + k = t + (k + 1) := by omega
    rw [harith]
    simp [retryLogs, List.append_assoc]

lemma upload_aux_replicate (mr : Nat) (e : RErr) (he : isTransientUpload e = true) :
    ∀ (k t : Nat) (rest : List (Attempt RemoteObj)) (logs : List (Nat × RErr))
      (att : Nat) (sp : List Nat) (st : StreamState),
      st.hasSeek = true → st.pos = 0 → t + k ≤ mr →
      upload_aux mr (List.replicate k (Attempt.err e) ++ rest) t logs att sp st =
        upload_aux mr rest (t + k) (logs ++ retryLogs t k e) (att + k)
          (sp ++ List.replicate k 0) st := by
  intro k
  induction k with
  | zero =>
    intro t rest logs att sp st _ _ _
    simp [retryLogs]
  | succ k ih =>
    intro t rest logs att sp st hseek hpos h
    have hnle : ¬ mr ≤ t := by omega
    have hrw : rewind (consume st) = st := by
      cases st with
      | mk len pos closed hs =>
        simp only [StreamState.hasSeek] at hseek
        simp only [StreamState.pos] at hpos
        subst hseek hpos
        simp [rewind, consume]
    rw [List.replicate_succ, List.cons_append]
    simp only [upload_aux, he, if_true, hnle, if_false, hrw, hpos]
    rw [ih (t + 1) rest (logs ++ [(t + 1, e)]) (att + 1) (sp ++ [0]) st hseek hpos (by omega)]
    have h1 : t + 1 + k = t + (k + 1) := by omega
    have h2 : att + 1 + k = att + (k + 1) := by omega
    rw [h1, h2]
    simp [retryLogs, List.append_assoc, List.replicate_succ]

lemma consume_closed (st : StreamState) : (consume st).closed = st.closed := rfl

lemma rewind_closed (st : StreamState) : (rewind st).closed = st.closed := by
  unfold rewind
  split <;> rfl

lemma upload_aux_never_closes (mr : Nat) :
    ∀ (script : List (Attempt RemoteObj)) (tries : Nat) (logs : List (Nat × RErr))
      (att : Nat) (sp : List Nat) (st : StreamState),
      (upload_aux mr script tries logs att sp st).stream.closed = st.closed := by
  intro script
  induction script with
  | nil => intro tries logs att sp st; rfl
  | cons a rest ih =>
    intro tries logs att sp st
    cases a with
    | ok v => simp [upload_aux, consume]
    | err e =>
      by_cases h : isTransientUpload e = true
      · by_cases h2 : mr ≤ tries
        · simp [upload_aux, h, h2, consume]
        · simp [upload_aux, h, h2, ih, rewind_closed, consume_closed]
      · simp [upload_aux, h, consume]

/-- C1 counterexample: with `maxRetries = 2`, a metadata fetch whose
three successive attempts all fail with transient (HTTP) errors raises
the last error, but only 2 attempts are logged — not the 3 failures
observed, refuting "the number of logged attempts equals the number of
failures observed". -/
theorem c1_counterexample :
    (get_cloud_obj 2 [Attempt.err ⟨.http, 1⟩, Attempt.err ⟨.http, 2⟩,
        Attempt.err ⟨.http, 3⟩]).result = .raised ⟨.http, 3⟩ ∧
    (get_cloud_obj 2 [Attempt.err ⟨.http, 1⟩, Attempt.err ⟨.http, 2⟩,
        Attempt.err ⟨.http, 3⟩]).logs.length = 2 ∧
    ¬ (get_cloud_obj 2 [Attempt.err ⟨.http, 1⟩, Attempt.err ⟨.http, 2⟩,
        Attempt.err ⟨.http, 3⟩]).logs.length = 3 := by
  decide

/-- C1 (amended): for each retry-wrapped operation (metadata fetch,
delete, upload), failing transiently exactly `maxRetries` times and
then succeeding returns success, failing `maxRetries + 1` times raises
the last transient error; `maxRetries` attempts are logged in both
cases — equal to the failures observed in the success case and one
fewer in the exhausted case, whose final failure is re-raised without
being logged. -/
theorem c1_retry_amended (mr : Nat) (e1 e2 : RErr) (v : RemoteObj) (st : StreamState)
    (h1 : isTransientGet e1 = true) (h2 : isTransientGet e2 = true)
    (hseek : st.hasSeek = true) (hpos : st.pos = 0) :
    get_cloud_obj mr (List.replicate mr (Attempt.err e1) ++ [Attempt.ok v]) =
      ⟨.ok v, retryLogs 0 mr e1⟩ ∧
    get_cloud_obj mr (List.replicate mr (Attempt.err e1) ++ [Attempt.err e2]) =
      ⟨.raised e2, retryLogs 0 mr e1⟩ ∧
    delete mr (List.replicate mr (Attempt.err e1) ++ [Attempt.ok ()]) =
      ⟨.ok (), retryLogs 0 mr e1⟩ ∧
    delete mr (List.replicate mr (Attempt.err e1) ++ [Attempt.err e2]) =
      ⟨.raised e2, retryLogs 0 mr e1⟩ ∧
    (upload_loop mr (List.replicate mr (Attempt.err e1) ++ [Attempt.ok v]) st).result =
      .ok v ∧
    (upload_loop mr (List.replicate mr (Attempt.err e1) ++ [Attempt.ok v]) st).logs =
      retryLogs 0 mr e1 ∧
    (upload_loop mr (List.replicate mr (Attempt.err e1) ++ [Attempt.err e2]) st).result =
      .raised e2 ∧
    (upload_loop mr (List.replicate mr (Attempt.err e1) ++ [Attempt.err e2]) st).logs =
      retryLogs 0 mr e1 ∧
    (retryLogs 0 mr e1).length = mr := by
  have hu1 : isTransientUpload e1 = true := transientGet_upload e1 h1
  have hu2 : isTransientUpload e2 = true := transientGet_upload e2 h2
  have hg := get_cloud_obj_aux_replicate mr e1 h1 mr 0
  have hd := delete_aux_replicate mr e1 h1 mr 0
  have hup := upload_aux_replicate mr e1 hu1 mr 0
  refine ⟨?_, ?_, ?_, ?_, ?_, ?_, ?_, ?_, retryLogs_length 0 mr e1⟩
  · rw [get_cloud_obj, hg [Attempt.ok v] [] (by omega)]
    simp [get_cloud_obj_aux]
  · rw [get_cloud_obj, hg [Attempt.err e2] [] (by omega)]
    simp [get_cloud_obj_aux, h2]
  · rw [delete, hd [Attempt.ok ()] [] (by omega)]
    simp [delete_aux]
  · rw [delete, hd [Attempt.err e2] [] (by omega)]
    simp [delete_aux, h2, transientGet_ne_nso e2 h2]
  · rw [upload_loop, hup [Attempt.ok v] [] 0 [] st hseek hpos (by omega)]
    simp [upload_aux]
  · rw [upload_loop, hup [Attempt.ok v] [] 0 [] st hseek hpos (by omega)]
    simp [upload_aux]
  · rw [upload_loop, hup [Attempt.err e2] [] 0 [] st hseek hpos (by omega)]
    simp [upload_aux, hu2]
  · rw [upload_loop, hup [Attempt.err e2] [] 0 [] st hseek hpos (by omega)]
    simp [upload_aux, hu2]

/-- Witness for C1 (amended) at `maxRetries = 1`, one HTTP failure
followed by success. -/
theorem c1_retry_amended_witness :
    get_cloud_obj 1 (List.replicate 1 (Attempt.err ⟨.http, 1⟩) ++ [Attempt.ok obj0]) =
      ⟨.ok obj0, retryLogs 0 1 ⟨.http, 1⟩⟩ :=
  (c1_retry_amended 1 ⟨.http, 1⟩ ⟨.service, 2⟩ obj0 stream0 rfl rfl rfl rfl).1

/-- C4 counterexample: a socket-level failure on the first attempt of
the metadata fetch (and of delete) is not retried — it propagates
immediately with nothing logged, although `maxRetries = 5` retries were
available; the claim says every retry-wrapped operation retries
socket-level failures.  Also, for delete a not-found outcome is not
propagated but translated to success. -/
theorem c4_counterexample :
    get_cloud_obj 5 [Attempt.err ⟨.socketError, 7⟩, Attempt.ok obj0] =
      ⟨.raised ⟨.socketError, 7⟩, []⟩ ∧
    delete 5 [Attempt.err ⟨.socketError, 7⟩, Attempt.ok ()] =
      ⟨.raised ⟨.socketError, 7⟩, []⟩ ∧
    delete 5 [Attempt.err ⟨.noSuchObject, 3⟩] = ⟨.ok (), []⟩ := by
  decide

/-- C4 (amended): the upload loop classifies socket-level failures as
transient (retried); the metadata fetch and delete loops classify only
network I/O, TLS and remote-service-side failures as transient and
treat socket-level failures — like every other exception — as fatal,
propagated immediately without consuming a retry and without logging;
not-found propagates from the metadata fetch and the upload loop but is
translated to success by delete. -/
theorem c4_classification_amended (mr : Nat) (s e f nso : RErr) (v : RemoteObj)
    (restO : List (Attempt RemoteObj)) (restU : List (Attempt Unit)) (st : StreamState)
    (hs : s.kind = .socketError) (he : isTransientGet e = true)
    (hf : f.kind = .otherErr) (hn : nso.kind = .noSuchObject) :
    get_cloud_obj mr (Attempt.err s :: restO) = ⟨.raised s, []⟩ ∧
    delete mr (Attempt.err s :: restU) = ⟨.raised s, []⟩ ∧
    (upload_loop (mr + 1) [Attempt.err s, Attempt.ok v] st).result = .ok v ∧
    (upload_loop (mr + 1) [Attempt.err s, Attempt.ok v] st).logs = [(1, s)] ∧
    get_cloud_obj (mr + 1) [Attempt.err e, Attempt.ok v] = ⟨.ok v, [(1, e)]⟩ ∧
    delete (mr + 1) [Attempt.err e, Attempt.ok ()] = ⟨.ok (), [(1, e)]⟩ ∧
    (upload_loop (mr + 1) [Attempt.err e, Attempt.ok v] st).result = .ok v ∧
    (upload_loop (mr + 1) [Attempt.err e, Attempt.ok v] st).logs = [(1, e)] ∧
    get_cloud_obj mr (Attempt.err f :: restO) = ⟨.raised f, []⟩ ∧
    delete mr (Attempt.err f :: restU) = ⟨.raised f, []⟩ ∧
    (upload_loop mr (Attempt.err f :: restO) st).result = .raised f ∧
    (upload_loop mr (Attempt.err f :: restO) st).logs = [] ∧
    get_cloud_obj mr (Attempt.err nso :: restO) = ⟨.raised nso, []⟩ ∧
    (upload_loop mr (Attempt.err nso :: restO) st).result = .raised nso ∧
    delete mr (Attempt.err nso :: restU) = ⟨.ok (), []⟩ := by
  have hsg := socket_not_transientGet s hs
  have hsu := socket_transientUpload s hs
  have hfg := other_not_transientGet f hf
  have hfu := other_not_transientUpload f hf
  have hng := nso_not_transientGet nso hn
  have hnu := nso_not_transientUpload nso hn
  have heu := transientGet_upload e he
  have hfn : ¬ f.kind = EKind.noSuchObject := by simp [hf]
  have hsn : ¬ s.kind = EKind.noSuchObject := by simp [hs]
  have hen := transientGet_ne_nso e he
  have hz : ¬ mr + 1 ≤ 0 := by omega
  refine ⟨?_, ?_, ?_, ?_, ?_, ?_, ?_, ?_, ?_, ?_, ?_, ?_, ?_, ?_, ?_⟩
  · simp [get_cloud_obj, get_cloud_obj_aux, hsg]
  · simp [delete, delete_aux, hsg, hsn]
  · simp [upload_loop, upload_aux, hsu, hz]
  · simp [upload_loop, upload_aux, hsu, hz]
  · simp [get_cloud_obj, get_cloud_obj_aux, he, hz]
  · simp [delete, delete_aux, he, hen, hz]
  · simp [upload_loop, upload_aux, heu, hz]
  · simp [upload_loop, upload_aux, heu, hz]
  · simp [get_cloud_obj, get_cloud_obj_aux, hfg]
  · simp [delete, delete_aux, hfg, hfn]
  · simp [upload_loop, upload_aux, hfu]
  · simp [upload_loop, upload_aux, hfu]
  · simp [get_cloud_obj, get_cloud_obj_aux, hng]
  · simp [upload_loop, upload_aux, hnu]
  · simp [delete, delete_aux, hn]

/-- Witness for C4 (amended): a socket-level failure makes the metadata
fetch raise immediately. -/
theorem c4_classification_amended_witness :
    get_cloud_obj 3 (Attempt.err ⟨.socketError, 7⟩ :: []) =
      ⟨.raised ⟨.socketError, 7⟩, []⟩ :=
  (c4_classification_amended 3 ⟨.socketError, 7⟩ ⟨.http, 1⟩ ⟨.otherErr, 2⟩
    ⟨.noSuchObject, 3⟩ obj0 [] [] stream0 rfl rfl rfl rfl).1

/-- C5: a not-found outcome makes delete succeed at any point of the
loop, whatever the retry counter, without logging or consuming a retry
(first and second conjuncts, the second after `k ≤ maxRetries`
transient failures); other transient errors are retried up to
`maxRetries` and then the last one is raised (third conjunct). -/
theorem c5_delete_idempotent (mr k : Nat) (nso e1 e2 : RErr)
    (restU : List (Attempt Unit)) (tries : Nat) (logs : List (Nat × RErr))
    (hn : nso.kind = .noSuchObject) (h1 : isTransientGet e1 = true)
    (h2 : isTransientGet e2 = true) (hk : k ≤ mr) :
    delete_aux mr (Attempt.err nso :: restU) tries logs = ⟨.ok (), logs⟩ ∧
    delete mr (List.replicate k (Attempt.err e1) ++ Attempt.err nso :: restU) =
      ⟨.ok (), retryLogs 0 k e1⟩ ∧
    delete mr (List.replicate mr (Attempt.err e1) ++ [Attempt.err e2]) =
      ⟨.raised e2, retryLogs 0 mr e1⟩ := by
  refine ⟨?_, ?_, ?_⟩
  · simp [delete_aux, hn]
  · rw [delete, delete_aux_replicate mr e1 h1 k 0 (Attempt.err nso :: restU) [] (by omega)]
    simp [delete_aux, hn]
  · rw [delete, delete_aux_replicate mr e1 h1 mr 0 [Attempt.err e2] [] (by omega)]
    simp [delete_aux, h2, transientGet_ne_nso e2 h2]

/-- Witness for C5: a not-found outcome deep inside the loop
(retry counter 5) still terminates delete as success. -/
theorem c5_delete_idempotent_witness :
    delete_aux 2 (Attempt.err ⟨.noSuchObject, 0⟩ :: []) 5 [] = ⟨.ok (), []⟩ :=
  (c5_delete_idempotent 2 1 ⟨.noSuchObject, 0⟩ ⟨.http, 1⟩ ⟨.ssl, 2⟩ [] 5 []
    rfl rfl rfl (by omega)).1

/-- `save` when the dedup check decides against uploading: no upload
call, the name is returned, the stream is untouched. -/
lemma save_no_upload (mr : Nat) (fetched : Option RemoteObj) (name : String)
    (content : List Nat) (script : List (Attempt RemoteObj)) (st : StreamState)
    (h : shouldUpload fetched (get_checksum content) = false) :
    save mr fetched name content script st = ⟨.ok name, 0, [], st⟩ := by
  unfold save
  rw [h]
  rfl

/-- C2: when the remote object exists and its reported checksum equals
the checksum computed from the content, `save` makes zero upload calls
and returns the name unchanged; and whenever an upload call is made
against an existing remote object, the reported checksum differs from
the computed one. -/
theorem c2_save_dedup :
    (∀ (mr : Nat) (obj : RemoteObj) (name : String) (content : List Nat)
        (script : List (Attempt RemoteObj)) (st : StreamState),
      obj.etag = get_checksum content →
      (save mr (some obj) name content script st).uploadCalls = 0 ∧
      (save mr (some obj) name content script st).result = .ok name) ∧
    (∀ (mr : Nat) (obj : RemoteObj) (name : String) (content : List Nat)
        (script : List (Attempt RemoteObj)) (st : StreamState),
      (save mr (some obj) name content script st).uploadCalls ≠ 0 →
      ¬ obj.etag = get_checksum content) := by
  constructor
  · intro mr obj name content script st h
    have hne : ¬ get_checksum content = [] := by simp [get_checksum]
    have hsu : shouldUpload (some obj) (get_checksum content) = false := by
      simp [shouldUpload, h, hne]
    rw [save_no_upload mr (some obj) name content script st hsu]
    exact ⟨rfl, rfl⟩
  · intro mr obj name content script st hcalls heq
    have hne : ¬ get_checksum content = [] := by simp [get_checksum]
    have hsu : shouldUpload (some obj) (get_checksum content) = false := by
      simp [shouldUpload, heq, hne]
    rw [save_no_upload mr (some obj) name content script st hsu] at hcalls
    exact hcalls rfl

/-- Witness for C2: a remote object whose etag equals the checksum of
the content `[1, 2]`. -/
theorem c2_save_dedup_witness :
    (save 1 (some ⟨get_checksum [1, 2], [1, 2]⟩) "a" [1, 2] [] stream0).uploadCalls = 0 ∧
    (save 1 (some ⟨get_checksum [1, 2], [1, 2]⟩) "a" [1, 2] [] stream0).result = .ok "a" :=
  c2_save_dedup.1 1 ⟨get_checksum [1, 2], [1, 2]⟩ "a" [1, 2] [] stream0 rfl

/-- C3 (code bug): the content stream is never closed by the upload
loop — `content.close()` sits in the `try` statement's `else` clause,
which Python skips because the `try` block exits via `break` on
success.  First conjunct: the closed flag is unchanged by any run of
the loop; the remaining conjuncts evaluate the failing input — a
successful first upload attempt — where the spec says the stream is
closed yet it is not.  The rewind half of the claim holds: after the
stream is opened at position 0, every attempt starts at position 0
(last conjunct, from the retried attempts rewinding via `seek(0)`). -/
theorem c3_close_never_runs :
    (∀ (mr : Nat) (script : List (Attempt RemoteObj)) (st : StreamState),
      (upload_loop mr script st).stream.closed = st.closed) ∧
    (upload_loop 5 [Attempt.ok obj0] stream0).result = .ok obj0 ∧
    (upload_loop 5 [Attempt.ok obj0] stream0).stream.closed = false ∧
    (∀ (mr k : Nat) (e : RErr) (v : RemoteObj) (st : StreamState),
      isTransientUpload e = true → st.hasSeek = true → st.pos = 0 → k ≤ mr →
      (upload_loop mr (List.replicate k (Attempt.err e) ++ [Attempt.ok v])
          st).startPositions = List.replicate (k + 1) 0) := by
  refine ⟨?_, by decide, by decide, ?_⟩
  · intro mr script st
    exact upload_aux_never_closes mr script 0 [] 0 [] st
  · intro mr k e v st he hseek hpos hk
    rw [upload_loop, upload_aux_replicate mr e he k 0 [Attempt.ok v] [] 0 [] st
      hseek hpos (by omega)]
    simp [upload_aux, hpos, List.replicate_succ']

/-- Witness for C3's quantified conjuncts at a concrete run. -/
theorem c3_close_never_runs_witness :
    (upload_loop 2 (List.replicate 1 (Attempt.err ⟨.http, 4⟩) ++ [Attempt.ok obj0])
        stream0).startPositions = List.replicate 2 0 :=
  c3_close_never_runs.2.2.2 2 1 ⟨.http, 4⟩ obj0 stream0 rfl rfl rfl (by omega)

/-- C10: deduplication applies only when the remote checksum is
non-empty — an existing remote object with an empty (falsy) etag makes
`shouldUpload` true for every locally computed checksum, the empty one
(equal to the reported one) included, and `save` performs the upload. -/
theorem c10_empty_etag (mr : Nat) (obj : RemoteObj) (name : String)
    (content : List Nat) (v : RemoteObj) (st : StreamState)
    (h : obj.etag = []) :
    (∀ etag, shouldUpload (some obj) etag = true) ∧
    (save mr (some obj) name content [Attempt.ok v] st).uploadCalls = 1 := by
  have hsu : ∀ etag, shouldUpload (some obj) etag = true := by
    intro etag
    simp [shouldUpload, h]
  refine ⟨hsu, ?_⟩
  simp [save, hsu, saveUploadOut, upload_loop, upload_aux]

/-- Witness for C10: `obj0` reports an empty etag. -/
theorem c10_empty_etag_witness :
    (∀ etag, shouldUpload (some obj0) etag = true) ∧
    (save 5 (some obj0) "a" [1] [Attempt.ok obj0] stream0).uploadCalls = 1 :=
  c10_empty_etag 5 obj0 "a" [1] obj0 stream0 rfl

/-- C6 counterexample: constructing the storage with username, API key
and container name all absent (no parameters, `None` defaults in the
settings) completes normally — no ConfigurationError is raised at
construction. -/
theorem c6_counterexample :
    storageInit defaultCumulus none none none none none none =
      .ok ⟨none, none, none, 5, 5, none, (none, none), "keystone"⟩ := rfl

/-- C6 (amended): construction never fails with ConfigurationError —
`__init__` performs no validation of username, API key or container
name; absent values are simply kept (credentials are forwarded to the
external authentication call, the container name stays unset until the
first container access). -/
theorem c6_no_validation_amended :
    (∀ (c : CumulusSettings) (u k ct : Option String) (t m : Option Nat)
        (cu : Option String),
      ∃ st, storageInit c u k ct t m cu = .ok st) ∧
    (∀ c : CumulusSettings,
      storageInit c none none none none none none =
        .ok ⟨c.username, c.api_key, c.container, c.timeout, c.max_retries,
          c.container_uri, (c.username, c.api_key), c.pyrax_identity_type⟩) := by
  constructor
  · intro c u k ct t m cu
    exact ⟨_, rfl⟩
  · intro c
    rfl

/-- `_headers_for`'s fold over all rules equals the fold over the
matching rules only. -/
lemma headers_foldl_filter (name : String) :
    ∀ (rules : List HeaderRule) (acc : List (String × String)),
      rules.foldl (fun a r => if r.matchFn name then dictUpdate a r.headers else a) acc =
        (rules.filter (fun r => r.matchFn name)).foldl
          (fun a r => dictUpdate a r.headers) acc := by
  intro rules
  induction rules with
  | nil => intro acc; rfl
  | cons r rest ih =>
    intro acc
    by_cases h : r.matchFn name = true
    · simp [h, ih]
    · simp [h, ih]

/-- C7: `_headers_for` computes exactly the map the spec describes —
the fold, in table order, of the header-sets of the matching rules into
an initially empty map, later matches overwriting earlier keys — and on
the spec's worked example (rule A sets X to 1, the later rule B sets X
to 2 and Y to 3, both match) the later rule wins on the key collision. -/
theorem c7_headers_for :
    (∀ (rules : List HeaderRule) (name : String),
      headers_for rules name = headersForSpec rules name) ∧
    headers_for [ruleA, ruleB] "app/style.css" = [("X", "2"), ("Y", "3")] := by
  constructor
  · intro rules name
    simpa [headers_for, headersForSpec] using headers_foldl_filter name rules []
  · decide

/-- C8: `listdir` always returns an empty first element; its second
element holds exactly the store's names that start with the normalized
prefix; and the normalization appends the path separator to a non-empty
prefix not already ending with it, leaving the empty prefix (and one
already ending with the separator) unchanged. -/
theorem c8_listdir :
    (∀ (store : List String) (path : String), (listdir store path).1 = []) ∧
    (∀ (store : List String) (path : String) (n : String),
      n ∈ (listdir store path).2 ↔
        n ∈ store ∧ strStartsWith n (normalizedPfx path) = true) ∧
    normalizedPfx "" = "" ∧
    (∀ path : String, ¬ path = "" → strEndsWith path "/" = false →
      normalizedPfx path = path ++ "/") ∧
    (∀ path : String, strEndsWith path "/" = true → normalizedPfx path = path) := by
  refine ⟨?_, ?_, by decide, ?_, ?_⟩
  · intro store path
    rfl
  · intro store path n
    simp [listdir, list_all, normalizedPfx, List.mem_filter]
  · intro path h1 h2
    simp [normalizedPfx, h1, h2]
  · intro path h
    by_cases hp : path = ""
    · simp [normalizedPfx, hp]
    · simp [normalizedPfx, hp, h]

/-- Witness for C8: `css` normalizes to `css/`. -/
theorem c8_listdir_witness : normalizedPfx "css" = "css" ++ "/" :=
  c8_listdir.2.2.2.1 "css" (by decide) (by decide)

/-- `read` leaves the content untouched. -/
lemma read_content (st : FileState) (n : Nat) : ((read st n).2).content = st.content := by
  by_cases h : st.pos = st.size
  · simp [read, h]
  · simp [read, h]

/-- `read` preserves the cursor invariant: the cursor is either at the
start or at the resolved size. -/
lemma read_inv (st : FileState) (n : Nat)
    (h : st.pos = 0 ∨ st.pos = st.content.length) :
    (read st n).2.pos = 0 ∨ (read st n).2.pos = (read st n).2.content.length := by
  by_cases hp : st.pos = st.size
  · simpa [read, hp] using h
  · rcases h with h0 | hlen
    · have hns : ¬ (0 : Nat) = st.size := by
        rw [← h0]
        exact hp
      simp [read, hp, h0, hns]
    · exact absurd hlen (by simpa [FileState.size] using hp)

/-- Every sequence of reads preserves the cursor invariant. -/
lemma runReads_inv (ops : List Nat) :
    ∀ st : FileState, (st.pos = 0 ∨ st.pos = st.content.length) →
      ((runReads st ops).pos = 0 ∨
        (runReads st ops).pos = (runReads st ops).content.length) := by
  induction ops with
  | nil => intro st h; exact h
  | cons n rest ih =>
    intro st h
    exact ih (read st n).2 (read_inv st n h)

/-- C9: the read cursor of a remote file stream only moves forward (each
`read` leaves it in place or advances it), is reset to 0 when the remote
handle is first resolved, never exceeds the stream's resolved size along
any sequence of reads from a freshly resolved handle, and a `read` at
cursor = size returns an empty result leaving the state unchanged. -/
theorem c9_cursor :
    (∀ (st : FileState) (n : Nat), st.pos ≤ (read st n).2.pos) ∧
    (∀ obj : RemoteObj, (openFile obj).pos = 0) ∧
    (∀ (obj : RemoteObj) (ops : List Nat),
      (runReads (openFile obj) ops).pos ≤ (runReads (openFile obj) ops).size) ∧
    (∀ (st : FileState) (n : Nat), st.pos = st.size → read st n = ([], st)) := by
  refine ⟨?_, fun _ => rfl, ?_, ?_⟩
  · intro st n
    by_cases h : st.pos = st.size
    · simp [read, h]
    · simp [read, h]
  · intro obj ops
    have h := runReads_inv ops (openFile obj) (Or.inl rfl)
    rcases h with h0 | hlen
    · simp [FileState.size, h0]
    · simp [FileState.size, hlen]
  · intro st n h
    simp [read, h]

/-- Witness for C9: a read at cursor = size returns the empty result. -/
theorem c9_cursor_witness : read ⟨[5], 1⟩ 0 = ([], ⟨[5], 1⟩) :=
  c9_cursor.2.2.2 ⟨[5], 1⟩ 0 rfl

end Cumulus
